import Mathlib

/-!
Verification model of the `cms-worker` repository: a Cloudflare-style worker
that serves file downloads out of an object store (R2), tracks per-file
download counters in a key-value store (KV), and offers upload / listing /
stats / reset endpoints.

The JavaScript source (`src/unnamed/part_000`, the enhanced worker that the
specification describes, with `src/index.js` an earlier cut of the same
handlers) is shallowly embedded here:

* strings are modelled at the character level (`String` / `List Char`); the
  handful of JS string primitives the code uses (`lastIndexOf`, `substring`,
  `toLowerCase`, `startsWith`, `split(sep)[1]`, `decodeURIComponent` with
  the ECMA-262 validating UTF-8 assembly of percent-escapes,
  `encodeURIComponent`, `parseInt`, `Number.prototype.toString`) are given
  executable character-level models;
* the external stores are association lists threaded through the handlers,
  together with a trace of the store operations each request attempts;
* a thrown JS exception that no `catch` in the source intercepts is the
  `none` case of the `Option Response` a handler produces;
* injected backend failures ("the KV / R2 call throws") are a `Faults`
  record passed to the handlers.
-/

namespace CmsWorker

/-! ## JS string primitives -/

/-- JS `s.lastIndexOf(c)` for a single-character needle: the index of the
last occurrence, or `-1` when absent. -/
def jsLastIndexOf (s : String) (c : Char) : Int :=
  match s.data.reverse.findIdx? (· == c) with
  | none => -1
  | some i => ((s.data.length - 1 - i : Nat) : Int)

/-- JS `s.substring(i)` for an integer start index: a negative start is
clamped to `0` (`Int.toNat` of a negative number is `0`). -/
def jsSubstringFrom (s : String) (i : Int) : String :=
  String.mk (s.data.drop i.toNat)

/-- JS `s.toLowerCase()`, character by character. -/
def jsToLower (s : String) : String :=
  String.mk (s.data.map Char.toLower)

/-- JS `s.startsWith(p)`. -/
def jsStartsWith (s p : String) : Bool :=
  p.data.isPrefixOf s.data

/-- Characters of `s` up to (excluding) the first occurrence of the
separator `sep`, or all of `s` when `sep` does not occur. -/
def takeUntilSep (sep : List Char) : List Char → List Char
  | [] => []
  | c :: rest =>
    if sep.isPrefixOf (c :: rest) then [] else c :: takeUntilSep sep rest

/-- JS `s.split(sep)[1]` under the guard — which holds at every call site in
the router — that `s` starts with `sep`: the text after the leading `sep` up
to the next occurrence of `sep` (or the end of the string). -/
def jsSplitAfter (sep s : String) : String :=
  String.mk (takeUntilSep sep.data (s.data.drop sep.data.length))

/-- Value of a hexadecimal digit character. -/
def hexDigitVal (c : Char) : Option Nat :=
  if '0' ≤ c ∧ c ≤ '9' then some (c.toNat - 48)
  else if 'A' ≤ c ∧ c ≤ 'F' then some (c.toNat - 55)
  else if 'a' ≤ c ∧ c ≤ 'f' then some (c.toNat - 87)
  else none

/-- A percent-decoding token: a literal character, or the byte value of
one `%XX` escape. -/
inductive PctTok where
  | lit (c : Char)
  | byte (b : Nat)

/-- First phase of `decodeURIComponent`: each `%XX` (two hex digits)
becomes a byte token and every other character a literal token; a `%` not
followed by two hex digits is a `URIError` (`none`). -/
def pctTokens : List Char → Option (List PctTok)
  | [] => some []
  | '%' :: c1 :: c2 :: rest =>
    match hexDigitVal c1, hexDigitVal c2 with
    | some h, some l => (pctTokens rest).map (.byte (16 * h + l) :: ·)
    | _, _ => none
  | '%' :: _ => none
  | c :: rest => (pctTokens rest).map (.lit c :: ·)

/-- Whether a byte is a UTF-8 continuation byte (`10xxxxxx`). -/
def isContByte (b : Nat) : Bool :=
  128 ≤ b ∧ b ≤ 191

/-- Second phase of `decodeURIComponent`: assemble the escape bytes as
UTF-8, exactly as the ECMA-262 `Decode` operation validates them.  An
ASCII byte stands alone; a multi-byte sequence needs its continuation
bytes to come from immediately following escapes; an initial continuation
byte (`%80`-`%BF`), an overlong lead (`%C0`-`%C1`), a lead above `%F4`, a
missing or malformed continuation, an overlong encoding, a surrogate code
point, or a code point above `0x10FFFF` all throw a `URIError` (`none`).
Each decoded code point is one character of the result. -/
def utf8Assemble : List PctTok → Option (List Char)
  | [] => some []
  | .lit c :: rest => (utf8Assemble rest).map (c :: ·)
  | .byte b :: rest =>
    if b < 128 then (utf8Assemble rest).map (Char.ofNat b :: ·)
    else if 194 ≤ b ∧ b ≤ 223 then
      match rest with
      | .byte b2 :: rest2 =>
        if isContByte b2 then
          (utf8Assemble rest2).map (Char.ofNat ((b - 192) * 64 + (b2 - 128)) :: ·)
        else none
      | _ => none
    else if 224 ≤ b ∧ b ≤ 239 then
      match rest with
      | .byte b2 :: .byte b3 :: rest2 =>
        if isContByte b2 && isContByte b3 then
          let cp := (b - 224) * 4096 + (b2 - 128) * 64 + (b3 - 128)
          if 2048 ≤ cp ∧ ¬(55296 ≤ cp ∧ cp ≤ 57343) then
            (utf8Assemble rest2).map (Char.ofNat cp :: ·)
          else none
        else none
      | _ => none
    else if 240 ≤ b ∧ b ≤ 244 then
      match rest with
      | .byte b2 :: .byte b3 :: .byte b4 :: rest2 =>
        if isContByte b2 && isContByte b3 && isContByte b4 then
          let cp := (b - 240) * 262144 + (b2 - 128) * 4096 + (b3 - 128) * 64 + (b4 - 128)
          if 65536 ≤ cp ∧ cp ≤ 1114111 then
            (utf8Assemble rest2).map (Char.ofNat cp :: ·)
          else none
        else none
      | _ => none
    else none

/-- Character-level `decodeURIComponent` core: percent-escape
tokenisation followed by validating UTF-8 assembly. -/
def pctDecodeChars (l : List Char) : Option (List Char) :=
  (pctTokens l).bind utf8Assemble

/-- JS `decodeURIComponent`; `none` models the thrown `URIError`. -/
def jsDecodeURIComponent (s : String) : Option String :=
  (pctDecodeChars s.data).map String.mk

/-- Hexadecimal digit character (uppercase), for percent-encoding. -/
def hexDigitChar (n : Nat) : Char :=
  if n < 10 then Char.ofNat (48 + n) else Char.ofNat (55 + n)

/-- Characters `encodeURIComponent` leaves unescaped:
`A-Z a-z 0-9 - _ . ! ~ * ' ( )` (39 is the apostrophe code). -/
def isUnescapedURIChar (c : Char) : Bool :=
  (('A' ≤ c ∧ c ≤ 'Z') ∨ ('a' ≤ c ∧ c ≤ 'z') ∨ ('0' ≤ c ∧ c ≤ '9')) ||
  c == '-' || c == '_' || c == '.' || c == '!' || c == '~' || c == '*' ||
  c.toNat == 39 || c == '(' || c == ')'

/-- JS `encodeURIComponent`, at the byte/ASCII level. -/
def jsEncodeURIComponent (s : String) : String :=
  String.mk (s.data.foldr
    (fun c acc =>
      (if isUnescapedURIChar c then [c]
       else ['%', hexDigitChar (c.toNat / 16 % 16), hexDigitChar (c.toNat % 16)]) ++ acc)
    [])

/-- Value of a decimal digit character. -/
def digitVal (c : Char) : Option Nat :=
  if '0' ≤ c ∧ c ≤ '9' then some (c.toNat - 48) else none

/-- Accumulating scan of a decimal-digit run, stopping at the first
non-digit, exactly as `parseInt` consumes its input. -/
def digitsGo (acc : Nat) : List Char → Nat
  | [] => acc
  | c :: rest =>
    match digitVal c with
    | some d => digitsGo (acc * 10 + d) rest
    | none => acc

/-- Value of the longest leading digit run; `none` (`NaN`) when the first
character is not a digit. -/
def digitsVal : List Char → Option Nat
  | [] => none
  | c :: rest => (digitVal c).map (fun d => digitsGo d rest)

/-- JS `parseInt` (radix 10) on a character list: optional sign, then the
longest leading digit run; `none` models `NaN`.  Leading whitespace and
`0x` forms are not modelled — no value in this system carries them. -/
def jsParseIntChars : List Char → Option Int
  | [] => none
  | c :: rest =>
    if c = '-' then (digitsVal rest).map (fun n => -(n : Int))
    else if c = '+' then (digitsVal rest).map (fun n => (n : Int))
    else (digitsVal (c :: rest)).map (fun n => (n : Int))

/-- JS `parseInt(s)` (radix 10). -/
def jsParseInt (s : String) : Option Int :=
  jsParseIntChars s.data

/-- Decimal digits of `n`, most significant first, computed with explicit
fuel (`fuel > n` suffices) so that the definition reduces in the kernel. -/
def natDigitsAux : Nat → Nat → List Char
  | 0, _ => []
  | fuel + 1, n =>
    if n < 10 then [Char.ofNat (48 + n)]
    else natDigitsAux fuel (n / 10) ++ [Char.ofNat (48 + n % 10)]

/-- JS `Number.prototype.toString` restricted to natural numbers. -/
def natRepr (n : Nat) : String :=
  String.mk (natDigitsAux (n + 1) n)

/-- JS `Number.prototype.toString` on integers. -/
def intRepr (i : Int) : String :=
  if i < 0 then "-" ++ natRepr i.natAbs else natRepr i.toNat

/-! ## Worker configuration constants (`src/unnamed/part_000`, lines 1-11) -/

def R2_BUCKET : String := "media"

def DOWNLOAD_EXPIRY : Nat := 31536000

def ALLOWED_EXTENSIONS : List String := [".jpg", ".png", ".pdf", ".zip", ".mp4", ".mp3"]

def AUTH_TOKEN : String := "your-secret-token"

def DEBUG : Bool := true

/-! ## Validator (`isValidFile`, lines 21-24) -/

/-- `isValidFile(filename)`: take the substring from the last `.` (JS
`substring` clamps the `-1` of a missing `.` to `0`, so a dotless name
yields the whole name), lowercase it, and test membership in
`ALLOWED_EXTENSIONS`. -/
def isValidFile (filename : String) : Bool :=
  ALLOWED_EXTENSIONS.contains
    (jsToLower (jsSubstringFrom filename (jsLastIndexOf filename '.')))


/-! ## Data model: stores, requests, responses -/

/-- A JSON value (for the worker's `JSON.stringify` bodies). -/
inductive JsonVal where
  | jbool (b : Bool)
  | jnum (n : Int)
  | jstr (s : String)
  | jnull
  | jarr (xs : List JsonVal)
  | jobj (fields : List (String × JsonVal))

/-- A response body: plain text, a JSON object, the HTML documentation
page, the binary bytes of a stored object, or the `null` body of the CORS
preflight response. -/
inductive Body where
  | text (s : String)
  | json (j : JsonVal)
  | html (s : String)
  | binary (b : List Nat)
  | empty

/-- An HTTP response: status, headers, body. -/
structure Response where
  status : Nat
  headers : List (String × String)
  body : Body

/-- An object in the R2 bucket: its bytes plus the metadata the handlers
read (`size`, `uploaded`, and the HTTP headers `get` attaches). -/
structure R2Object where
  body : List Nat
  size : Nat
  uploaded : String
  headers : List (String × String)
deriving DecidableEq

/-- The two external stores: the KV counter namespace (`ZED_DOWNLOADS`)
and the R2 bucket (`media`), both as association lists keyed by string. -/
structure StoreState where
  kv : List (String × String)
  r2 : List (String × R2Object)
deriving DecidableEq

/-- One attempted operation against an external store (recorded even when
the injected fault makes the call throw). -/
inductive StoreOp where
  | kvGetOp (k : String)
  | kvPutOp (k v : String)
  | kvDeleteOp (k : String)
  | kvListOp
  | r2GetOp (k : String)
  | r2PutOp (k : String)
  | r2ListOp
deriving DecidableEq

/-- Injected backend failures: when a flag is set, every call to that
backend throws (with the given `error.message`). -/
structure Faults where
  kvThrows : Bool := false
  r2Throws : Bool := false
  kvErrMsg : String := "KV failure"
  r2ErrMsg : String := "R2 failure"

/-- No injected failures. -/
def noFaults : Faults := {}

/-- A multipart form-data entry as `formData.get` returns it: JS `null`
(absent), `undefined`, a string field, or a `File` (name, size, bytes). -/
inductive JSVal where
  | nullv
  | undef
  | str (s : String)
  | fileV (name : String) (size : Nat) (content : List Nat)

/-- JS truthiness of a form-data value (`null`, `undefined` and the empty
string are falsy; a `File` object is truthy). -/
def jsTruthy : JSVal → Bool
  | .nullv => false
  | .undef => false
  | .str s => !(s == "")
  | .fileV _ _ _ => true

/-- An incoming request, reduced to the parts the worker reads: method,
URL path (plus origin and query string, used only to build URL strings in
JSON payloads), the `Authorization` and `X-Debug` headers, the parsed
multipart form (`none` when `request.formData()` would throw), and the
platform clock (`Date.now()` / `new Date().toISOString()`). -/
structure Request where
  method : String
  path : String
  origin : String := ""
  search : String := ""
  authorization : Option String := none
  xDebug : Option String := none
  formData : Option (List (String × JSVal)) := none
  now : Nat := 0
  nowISO : String := ""

/-- The outcome of handling a request: the response (`none` when an
uncaught exception escapes the handler), the resulting store state, and
the trace of attempted store operations. -/
structure FetchOut where
  resp : Option Response
  st : StoreState
  ops : List StoreOp

/-! ## Store adapters (association-list models of KV and R2) -/

/-- `env.ZED_DOWNLOADS.get(k)`: the stored string, or JS `null`. -/
def kvGet (kv : List (String × String)) (k : String) : Option String :=
  (kv.find? (fun p => p.1 == k)).map (·.2)

/-- `env.ZED_DOWNLOADS.put(k, v)`: replace any entry for `k` with `v`. -/
def kvPut (kv : List (String × String)) (k v : String) : List (String × String) :=
  (k, v) :: kv.filter (fun p => !(p.1 == k))

/-- `env.ZED_DOWNLOADS.delete(k)`. -/
def kvDelete (kv : List (String × String)) (k : String) : List (String × String) :=
  kv.filter (fun p => !(p.1 == k))

/-- `env[R2_BUCKET].get(k)`. -/
def r2Get (r2 : List (String × R2Object)) (k : String) : Option R2Object :=
  (r2.find? (fun p => p.1 == k)).map (·.2)

/-- `env[R2_BUCKET].put(k, obj)`. -/
def r2Put (r2 : List (String × R2Object)) (k : String) (o : R2Object) :
    List (String × R2Object) :=
  (k, o) :: r2.filter (fun p => !(p.1 == k))


/-! ## Header helpers -/

/-- Case-insensitive header-name comparison (the `Headers` class is
case-insensitive). -/
def headerNameEq (a b : String) : Bool :=
  jsToLower a == jsToLower b

/-- `headers.set(k, v)`: drop any entry with the same (case-insensitive)
name and append the new one. -/
def headersSet (hs : List (String × String)) (k v : String) : List (String × String) :=
  hs.filter (fun p => !(headerNameEq p.1 k)) ++ [(k, v)]

/-- `headers.get(k)`. -/
def headersGet (hs : List (String × String)) (k : String) : Option String :=
  ((hs.find? (fun p => headerNameEq p.1 k))).map (·.2)


/-! ## JSON field helpers -/

/-- NaN-propagating addition (`NaN` is `none`). -/
def nanAdd : Option Int → Option Int → Option Int
  | some a, some b => some (a + b)
  | _, _ => none

/-- JS `count ? parseInt(count) : 0` on a KV read result (`none` = JS
`null`); a `none` result models `NaN`. -/
def countOfVal : Option String → Option Int
  | none => some 0
  | some s => if s == "" then some 0 else jsParseInt s

/-- A possibly-`NaN` number as `JSON.stringify` renders it (`NaN` becomes
`null`). -/
def jnumOrNull : Option Int → JsonVal
  | some n => .jnum n
  | none => .jnull

/-- A plain-text response (error paths pass no explicit headers). -/
def textResponse (status : Nat) (s : String) : Response :=
  { status := status, headers := [], body := .text s }

/-! ## Counter adapter (`incrementDownloadCount`, lines 45-77) -/

/-- Result of the fire-and-forget increment: the updated KV state and the
attempted operations.  When the KV backend throws, the handler's `catch`
logs and (with `DEBUG = true`) re-throws into the rejected promise that
`handleDownload`'s `.catch` swallows — the store is left unchanged either
way, and no caller reads the returned count. -/
structure IncOut where
  kv : List (String × String)
  ops : List StoreOp

/-- `incrementDownloadCount(env, filename)`: read `download:<filename>`
(absent or empty → the count starts at 1, otherwise `parseInt` + 1) and
write the result back as a string (`NaN.toString()` is `"NaN"`). -/
def incrementDownloadCount (kvThrows : Bool) (kv : List (String × String))
    (filename : String) : IncOut :=
  let key := "download:" ++ filename
  if kvThrows then { kv := kv, ops := [.kvGetOp key] }
  else
    let currentCount := kvGet kv key
    let newCount : Option Int :=
      match currentCount with
      | some s => if s == "" then some 1 else (jsParseInt s).map (· + 1)
      | none => some 1
    let written := match newCount with | some i => intRepr i | none => "NaN"
    { kv := kvPut kv key written, ops := [.kvGetOp key, .kvPutOp key written] }

/-! ## `setDownloadHeaders` (lines 27-42) -/

/-- `setDownloadHeaders(filename, object)`: start from the R2 object's
headers and set the forced-download, cache and CORS headers. -/
def setDownloadHeaders (filename : String) (obj : R2Object) : List (String × String) :=
  let h0 := obj.headers
  let h1 := headersSet h0 "Content-Disposition" ("attachment; filename=\"" ++ filename ++ "\"")
  let h2 := headersSet h1 "Cache-Control" ("public, max-age=" ++ natRepr DOWNLOAD_EXPIRY ++ ", immutable")
  let h3 := headersSet h2 "Access-Control-Allow-Origin" "*"
  let h4 := headersSet h3 "Access-Control-Allow-Methods" "GET, HEAD, OPTIONS"
  headersSet h4 "Access-Control-Allow-Headers" "Content-Type, Authorization, X-Debug"

/-! ## `generateDownloadUrl` (lines 80-118) -/

/-- `generateDownloadUrl(request, env, filename)`: validate the extension,
check the `Authorization` header (skipped only when no token is
configured), and return the JSON link descriptor.  Never touches a store. -/
def generateDownloadUrl (req : Request) (filename : String) : Response :=
  if filename == "" || !isValidFile filename then
    textResponse 400 "Invalid file type"
  else if !(AUTH_TOKEN == "") && !(req.authorization == some ("Bearer " ++ AUTH_TOKEN)) then
    textResponse 401 "Unauthorized"
  else
    { status := 200,
      headers := [("Content-Type", "application/json"),
                  ("Access-Control-Allow-Origin", "*"),
                  ("Cache-Control", "no-cache")],
      body := .json (.jobj [
        ("success", .jbool true),
        ("url", .jstr (req.origin ++ "/download/" ++ filename ++ req.search)),
        ("filename", .jstr filename),
        ("expires", .jnum ((req.now : Int) + (DOWNLOAD_EXPIRY : Int) * 1000)),
        ("direct", .jbool true)]) }

/-! ## `handleDownload` (lines 121-173) -/

/-- `handleDownload(request, env, filename)`: validate, fetch from R2
(absent → 404), fire the counter increment (the argument
`decodeURIComponent(filename)` is evaluated synchronously inside the
`try`, so a malformed percent-sequence in `filename` lands in the `catch`
→ 500), then answer 200 with the forced-download headers and the object
bytes.  Sequential semantics: the fire-and-forget increment completes
against the store before the next request, and its failure only rejects a
promise whose `.catch` merely logs. -/
def handleDownload (req : Request) (filename : String) (st : StoreState)
    (f : Faults) : FetchOut :=
  if filename == "" || !isValidFile filename then
    { resp := some (textResponse 400 "Invalid file type"), st := st, ops := [] }
  else if f.r2Throws then
    { resp := some (textResponse 500 "Error retrieving file"), st := st,
      ops := [.r2GetOp filename] }
  else
    match r2Get st.r2 filename with
    | none =>
      { resp := some (textResponse 404 "File not found"), st := st,
        ops := [.r2GetOp filename] }
    | some obj =>
      match jsDecodeURIComponent filename with
      | none =>
        { resp := some (textResponse 500 "Error retrieving file"), st := st,
          ops := [.r2GetOp filename] }
      | some decoded =>
        let inc := incrementDownloadCount f.kvThrows st.kv decoded
        let hs := setDownloadHeaders filename obj
        let hs := if req.xDebug == some "true" then
            headersSet (headersSet hs "X-Debug-Filename" filename)
              "X-Debug-Count-Key" ("download:" ++ decoded)
          else hs
        { resp := some
            { status := 200, headers := hs, body := .binary obj.body },
          st := { st with kv := inc.kv },
          ops := .r2GetOp filename :: inc.ops }

/-! ## `handleUpload` (lines 176-222) -/

/-- `formData.get(k)`: the first entry named `k`, or JS `null`. -/
def fdGet (fd : List (String × JSVal)) (k : String) : JSVal :=
  match fd.find? (fun p => p.1 == k) with
  | some p => p.2
  | none => .nullv

/-- The JS property access `x.name`: a `TypeError` (`none`) on `null` or
`undefined`, the file's name on a `File`, `undefined` on a string. -/
def jsGetNameProp : JSVal → Option JSVal
  | .nullv => none
  | .undef => none
  | .str _ => some .undef
  | .fileV n _ _ => some (.str n)

/-- The bytes R2 stores for an uploaded form value. -/
def fileBytes : JSVal → List Nat
  | .fileV _ _ content => content
  | .str s => s.data.map Char.toNat
  | _ => []

/-- The `size` field of the upload response: `file.size` is `undefined`
for a string form value, and `JSON.stringify` drops `undefined` fields. -/
def sizeField : JSVal → List (String × JsonVal)
  | .fileV _ sz _ => [("size", .jnum sz)]
  | _ => []

/-- The stored object's size metadata. -/
def fileSize : JSVal → Nat
  | .fileV _ sz _ => sz
  | v => (fileBytes v).length

/-- `handleUpload(request, env)`: check the token, then read `file` and
`filename` from the form.  `const filename = formData.get('filename') ||
file.name` dereferences `file` before the `if (!file || !filename)` null
check, so a form with neither entry throws an uncaught `TypeError`. -/
def handleUpload (req : Request) (st : StoreState) (f : Faults) : FetchOut :=
  if !(req.authorization == some ("Bearer " ++ AUTH_TOKEN)) then
    { resp := some (textResponse 401 "Unauthorized"), st := st, ops := [] }
  else
    match req.formData with
    | none => { resp := none, st := st, ops := [] }
    | some fd =>
      let file := fdGet fd "file"
      let fnameRes : Option JSVal :=
        if jsTruthy (fdGet fd "filename") then some (fdGet fd "filename")
        else jsGetNameProp file
      match fnameRes with
      | none => { resp := none, st := st, ops := [] }
      | some filenameV =>
        if !jsTruthy file || !jsTruthy filenameV then
          { resp := some (textResponse 400 "No file provided"), st := st, ops := [] }
        else
          match filenameV with
          | .str filename =>
            if !isValidFile filename then
              { resp := some (textResponse 400 "Invalid file extension"), st := st, ops := [] }
            else if f.r2Throws then
              { resp := some (textResponse 500 "Upload failed"), st := st,
                ops := [.r2PutOp filename] }
            else
              let obj : R2Object :=
                { body := fileBytes file, size := fileSize file,
                  uploaded := req.nowISO, headers := [] }
              { resp := some
                  { status := 200,
                    headers := [("Content-Type", "application/json"),
                                ("Cache-Control", "no-cache")],
                    body := .json (.jobj ([("success", .jbool true),
                      ("filename", .jstr filename),
                      ("url", .jstr (req.origin ++ "/download/" ++ filename))] ++
                      sizeField file ++
                      [("stats_url", .jstr (req.origin ++ "/stats/" ++ filename))])) },
                st := { st with r2 := r2Put st.r2 filename obj },
                ops := [.r2PutOp filename] }
          | _ => { resp := none, st := st, ops := [] }

/-! ## `listFiles` (lines 225-265) -/

/-- `listFiles(env)`: list the bucket, attach each object's counter, and
return the JSON summary.  Any KV `get` rejecting inside the `Promise.all`
lands in the surrounding `catch` → 500. -/
def listFiles (st : StoreState) (f : Faults) : FetchOut :=
  if f.r2Throws then
    { resp := some (textResponse 500 "Error listing files"), st := st, ops := [.r2ListOp] }
  else if f.kvThrows && !st.r2.isEmpty then
    { resp := some (textResponse 500 "Error listing files"), st := st,
      ops := .r2ListOp :: st.r2.map (fun p => .kvGetOp ("download:" ++ p.1)) }
  else
    let fileEntry := fun (p : String × R2Object) =>
      JsonVal.jobj [("key", .jstr p.1), ("size", .jnum p.2.size),
        ("uploaded", .jstr p.2.uploaded),
        ("downloads", jnumOrNull (countOfVal (kvGet st.kv ("download:" ++ p.1)))),
        ("stats_url", .jstr ("/stats/" ++ jsEncodeURIComponent p.1)),
        ("download_url", .jstr ("/download/" ++ jsEncodeURIComponent p.1))]
    let total := st.r2.foldl
      (fun acc p => nanAdd acc (countOfVal (kvGet st.kv ("download:" ++ p.1)))) (some 0)
    { resp := some
        { status := 200,
          headers := [("Content-Type", "application/json"),
                      ("Access-Control-Allow-Origin", "*"),
                      ("Cache-Control", "no-cache")],
          body := .json (.jobj [("success", .jbool true),
            ("files", .jarr (st.r2.map fileEntry)),
            ("total_files", .jnum st.r2.length),
            ("total_downloads", jnumOrNull total)]) },
      st := st,
      ops := .r2ListOp :: st.r2.map (fun p => .kvGetOp ("download:" ++ p.1)) }

/-! ## `getAllStats` (lines 268-318) -/

/-- `getAllStats(env)`: enumerate the KV namespace, read every
`download:`-keyed counter, and return the per-file map plus totals; a KV
failure lands in the `catch` → JSON 500 (still carrying `success`). -/
def getAllStats (st : StoreState) (f : Faults) : FetchOut :=
  if f.kvThrows then
    { resp := some
        { status := 500,
          headers := [("Content-Type", "application/json")],
          body := .json (.jobj [("success", .jbool false),
            ("error", .jstr f.kvErrMsg),
            ("message", .jstr "Could not retrieve stats")]) },
      st := st, ops := [.kvListOp] }
  else
    let entries := st.kv.filter (fun p => jsStartsWith p.1 "download:")
    let statEntry := fun (p : String × String) =>
      (String.mk (p.1.data.drop 9), jnumOrNull (countOfVal (some p.2)))
    let total := entries.foldl (fun acc p => nanAdd acc (countOfVal (some p.2))) (some 0)
    { resp := some
        { status := 200,
          headers := [("Content-Type", "application/json"),
                      ("Access-Control-Allow-Origin", "*"),
                      ("Cache-Control", "no-cache")],
          body := .json (.jobj [("success", .jbool true),
            ("stats", .jobj (entries.map statEntry)),
            ("total_files", .jnum entries.length),
            ("total_downloads", jnumOrNull total),
            ("debug_info", .jobj [("kv_entries", .jnum st.kv.length),
              ("counted_entries", .jnum entries.length)])]) },
      st := st,
      ops := .kvListOp :: entries.map (fun p => .kvGetOp p.1) }

/-! ## `testKV` (lines 321-363) -/

/-- `testKV(env)`: write a probe value, read it back, delete it, and
report pass/fail; a KV failure lands in the `catch` → JSON 500. -/
def testKV (req : Request) (st : StoreState) (f : Faults) : FetchOut :=
  let testKey := "test_kv_functionality"
  let testValue := "kv_is_working_" ++ natRepr req.now
  if f.kvThrows then
    { resp := some
        { status := 500,
          headers := [("Content-Type", "application/json")],
          body := .json (.jobj [("success", .jbool false),
            ("kv_test", .jstr "FAILED"),
            ("error", .jstr f.kvErrMsg),
            ("message", .jstr "KV is NOT working")]) },
      st := st, ops := [.kvPutOp testKey testValue] }
  else
    let kv1 := kvPut st.kv testKey testValue
    let retrieved := kvGet kv1 testKey
    let kv2 := kvDelete kv1 testKey
    let ok := retrieved == some testValue
    { resp := some
        { status := 200,
          headers := [("Content-Type", "application/json"),
                      ("Cache-Control", "no-cache")],
          body := .json (.jobj [("success", .jbool ok),
            ("kv_test", .jstr (if ok then "PASSED" else "FAILED")),
            ("written", .jstr testValue),
            ("read", match retrieved with | some s => .jstr s | none => .jnull),
            ("message", .jstr (if ok then "KV is working correctly"
                               else "KV read/write mismatch"))]) },
      st := { st with kv := kv2 },
      ops := [.kvPutOp testKey testValue, .kvGetOp testKey, .kvDeleteOp testKey] }

/-! ## `resetDownloadCount` (lines 366-391) -/

/-- `resetDownloadCount(env, filename, authHeader)`: the token check comes
first — an absent or mismatched header returns 401 before any store
access.  Then the decoded counter key is deleted. -/
def resetDownloadCount (req : Request) (filename : String) (st : StoreState)
    (f : Faults) : FetchOut :=
  if !(req.authorization == some ("Bearer " ++ AUTH_TOKEN)) then
    { resp := some (textResponse 401 "Unauthorized"), st := st, ops := [] }
  else
    match jsDecodeURIComponent filename with
    | none =>
      { resp := some (textResponse 500 "Error resetting count"), st := st, ops := [] }
    | some d =>
      let key := "download:" ++ d
      if f.kvThrows then
        { resp := some (textResponse 500 "Error resetting count"), st := st,
          ops := [.kvDeleteOp key] }
      else
        { resp := some
            { status := 200,
              headers := [("Content-Type", "application/json")],
              body := .json (.jobj [("success", .jbool true),
                ("message", .jstr ("Download count reset for " ++ filename)),
                ("filename", .jstr filename)]) },
          st := { st with kv := kvDelete st.kv key },
          ops := [.kvDeleteOp key] }

/-! ## `/stats/` route body (lines 434-482) -/

/-- The `/stats/{filename}` branch of the router, after the non-empty
check.  A malformed percent-sequence throws inside the `try`, and the
`catch` block's own `decodeURIComponent(filename)` throws again —
uncaught (`none`).  A KV read failure is downgraded to a 200 response
with `downloads: 0` and an `error` field. -/
def handleStats (req : Request) (filename : String) (st : StoreState)
    (f : Faults) : FetchOut :=
  match jsDecodeURIComponent filename with
  | none => { resp := none, st := st, ops := [] }
  | some d =>
    let key := "download:" ++ d
    if f.kvThrows then
      { resp := some
          { status := 200,
            headers := [("Content-Type", "application/json"),
                        ("Access-Control-Allow-Origin", "*")],
            body := .json (.jobj [("success", .jbool false),
              ("filename", .jstr d),
              ("downloads", .jnum 0),
              ("error", .jstr f.kvErrMsg),
              ("message", .jstr "Could not retrieve stats")]) },
        st := st, ops := [.kvGetOp key] }
    else
      { resp := some
          { status := 200,
            headers := [("Content-Type", "application/json"),
                        ("Access-Control-Allow-Origin", "*"),
                        ("Cache-Control", "no-cache")],
            body := .json (.jobj [("success", .jbool true),
              ("filename", .jstr d),
              ("downloads", jnumOrNull (countOfVal (kvGet st.kv key))),
              ("key", .jstr key),
              ("timestamp", .jstr req.nowISO)]) },
        st := st, ops := [.kvGetOp key] }

/-! ## Router (`fetch`, lines 394-613) -/

/-- CORS preflight headers (lines 410-417). -/
def corsPreflightHeaders : List (String × String) :=
  [("Access-Control-Allow-Origin", "*"),
   ("Access-Control-Allow-Methods", "GET, POST, PUT, DELETE, OPTIONS"),
   ("Access-Control-Allow-Headers", "Content-Type, Authorization, X-Debug"),
   ("Access-Control-Max-Age", "86400")]

/-- The static documentation page (lines 515-612); the markup is
abbreviated — no claim reads it. -/
def docPage : String := "R2 Direct Download Service documentation"

/-- The worker's `fetch` dispatcher: OPTIONS preflight short-circuit, then
sequential path-prefix routing.  The final branch is modelled from the
spec: the source file is truncated inside the documentation template, and
§4.4 gives "any other path/method → 404". -/
def workerFetch (req : Request) (st : StoreState) (f : Faults) : FetchOut :=
  let path := req.path
  let method := req.method
  if method == "OPTIONS" then
    { resp := some
        { status := 200, headers := corsPreflightHeaders, body := .empty },
      st := st, ops := [] }
  else if jsStartsWith path "/generate/" then
    match jsDecodeURIComponent (jsSplitAfter "/generate/" path) with
    | none => { resp := none, st := st, ops := [] }
    | some fn => { resp := some (generateDownloadUrl req fn), st := st, ops := [] }
  else if jsStartsWith path "/download/" then
    match jsDecodeURIComponent (jsSplitAfter "/download/" path) with
    | none => { resp := none, st := st, ops := [] }
    | some fn => handleDownload req fn st f
  else if jsStartsWith path "/stats/" then
    let filename := jsSplitAfter "/stats/" path
    if filename == "" then
      { resp := some (textResponse 400 "Filename required"), st := st, ops := [] }
    else handleStats req filename st f
  else if path == "/all-stats" && method == "GET" then getAllStats st f
  else if path == "/debug/kv" && method == "GET" then testKV req st f
  else if jsStartsWith path "/reset-stats/" && method == "POST" then
    resetDownloadCount req (jsSplitAfter "/reset-stats/" path) st f
  else if path == "/upload" && method == "POST" then handleUpload req st f
  else if path == "/files" && method == "GET" then listFiles st f
  else if path == "/" && method == "GET" then
    { resp := some
        { status := 200, headers := [("Content-Type", "text/html")],
          body := .html docPage },
      st := st, ops := [] }
  else
    { resp := some (textResponse 404 "Not Found"), st := st, ops := [] }

/-! ## Observation helpers (selectors over responses) -/

/-- Status of an optional response. -/
def respStatus (o : Option Response) : Option Nat :=
  o.map (·.status)

/-- A JSON-object body's field, by name. -/
def jsonField (r : Response) (k : String) : Option JsonVal :=
  match r.body with
  | .json (.jobj fields) => (fields.find? (fun p => p.1 == k)).map (·.2)
  | _ => none

/-- A numeric JSON field. -/
def jsonNumField (r : Response) (k : String) : Option Int :=
  match jsonField r k with
  | some (.jnum n) => some n
  | _ => none

/-- A string JSON field. -/
def jsonStrField (r : Response) (k : String) : Option String :=
  match jsonField r k with
  | some (.jstr s) => some s
  | _ => none

/-- A boolean JSON field. -/
def jsonBoolField (r : Response) (k : String) : Option Bool :=
  match jsonField r k with
  | some (.jbool b) => some b
  | _ => none

/-- A numeric JSON field of an optional response. -/
def respNumField (o : Option Response) (k : String) : Option Int :=
  match o with
  | some r => jsonNumField r k
  | none => none

/-- Whether a body is a JSON value. -/
def bodyIsJson : Body → Bool
  | .json _ => true
  | _ => false

/-- Whether a body is binary object content. -/
def bodyIsBinary : Body → Bool
  | .binary _ => true
  | _ => false

/-- The text of a plain-text body. -/
def bodyText : Body → Option String
  | .text s => some s
  | _ => none

/-- The bytes of a binary body. -/
def bodyBytes : Body → Option (List Nat)
  | .binary b => some b
  | _ => none

/-- Whether a response's body is a JSON object carrying a boolean
`success` field. -/
def hasSuccessBool (r : Response) : Bool :=
  match r.body with
  | .json (.jobj fields) =>
    fields.any (fun p => p.1 == "success" &&
      (match p.2 with | .jbool _ => true | _ => false))
  | _ => false

/-- A named header of an optional response. -/
def respHeader (o : Option Response) (k : String) : Option String :=
  match o with
  | some r => headersGet r.headers k
  | none => none

/-- The binary body bytes of an optional response. -/
def respBytes (o : Option Response) : Option (List Nat) :=
  match o with
  | some r => bodyBytes r.body
  | none => none

/-- A string JSON field of an optional response. -/
def respStrField (o : Option Response) (k : String) : Option String :=
  match o with
  | some r => jsonStrField r k
  | none => none

/-- A boolean JSON field of an optional response. -/
def respBoolField (o : Option Response) (k : String) : Option Bool :=
  match o with
  | some r => jsonBoolField r k
  | none => none

/-! ## Concrete fixtures for counterexample runs -/

/-- A small stored object used by the concrete runs. -/
def demoObj : R2Object :=
  { body := [104, 105], size := 2, uploaded := "2024-01-01", headers := [] }

/-! # Theorems -/

/-! ## Decimal round trip: `parseInt(n.toString()) = n` -/

theorem digitVal_ofNat {m : Nat} (hm : m < 10) :
    digitVal (Char.ofNat (48 + m)) = some m := by
  interval_cases m <;> decide

theorem digitsGo_append_digit (l : List Char) {m : Nat} (hm : m < 10)
    (hl : ∀ c ∈ l, (digitVal c).isSome) (acc : Nat) :
    digitsGo acc (l ++ [Char.ofNat (48 + m)]) = digitsGo acc l * 10 + m := by
  induction l generalizing acc with
  | nil => simp [digitsGo, digitVal_ofNat hm]
  | cons c t ih =>
    have hc : (digitVal c).isSome := hl c (List.mem_cons_self c t)
    rcases Option.isSome_iff_exists.mp hc with ⟨d, hd⟩
    simp only [List.cons_append, digitsGo, hd]
    exact ih (fun x hx => hl x (List.mem_cons_of_mem c hx)) (acc * 10 + d)

theorem natDigitsAux_fuel_irrel (n : Nat) : ∀ f1 f2 : Nat, n < f1 → n < f2 →
    natDigitsAux f1 n = natDigitsAux f2 n := by
  induction n using Nat.strong_induction_on with
  | _ n ih =>
    intro f1 f2 h1 h2
    match f1, f2 with
    | g1 + 1, g2 + 1 =>
      by_cases hn : n < 10
      · simp [natDigitsAux, hn]
      · have hpos : 0 < n := by omega
        have hdiv : n / 10 < n := Nat.div_lt_self hpos (by omega)
        simp only [natDigitsAux, if_neg hn]
        rw [ih (n / 10) hdiv g1 (n / 10 + 1) (by omega) (by omega),
            ih (n / 10) hdiv g2 (n / 10 + 1) (by omega) (by omega)]

/-- Every character the decimal printer emits is a digit, and parsing the
printed digits back yields the printed number. -/
theorem natDigits_parse (n : Nat) :
    (∀ c ∈ natDigitsAux (n + 1) n, (digitVal c).isSome) ∧
    digitsVal (natDigitsAux (n + 1) n) = some n := by
  induction n using Nat.strong_induction_on with
  | _ n ih =>
    by_cases hn : n < 10
    · constructor
      · intro c hc
        simp only [natDigitsAux, if_pos hn, List.mem_singleton] at hc
        subst hc
        simp [digitVal_ofNat hn]
      · simp [natDigitsAux, if_pos hn, digitsVal, digitVal_ofNat hn, digitsGo]
    · have hpos : 0 < n := by omega
      have hdiv : n / 10 < n := Nat.div_lt_self hpos (by omega)
      have hmod : n % 10 < 10 := Nat.mod_lt n (by omega)
      have hstep : natDigitsAux (n + 1) n =
          natDigitsAux (n / 10 + 1) (n / 10) ++ [Char.ofNat (48 + n % 10)] := by
        conv_lhs => rw [natDigitsAux]
        rw [if_neg hn]
        rw [natDigitsAux_fuel_irrel (n / 10) n (n / 10 + 1) (by omega) (by omega)]
      rcases ih (n / 10) hdiv with ⟨hall, hval⟩
      have hall' : ∀ c ∈ natDigitsAux (n + 1) n, (digitVal c).isSome := by
        intro c hc
        rw [hstep] at hc
        rcases List.mem_append.mp hc with hc | hc
        · exact hall c hc
        · rcases List.mem_singleton.mp hc with rfl
          simp [digitVal_ofNat hmod]
      refine ⟨hall', ?_⟩
      rw [hstep]
      match hshape : natDigitsAux (n / 10 + 1) (n / 10) with
      | [] => rw [hshape] at hval; simp [digitsVal] at hval
      | c :: t =>
        rw [hshape] at hval hall
        simp only [digitsVal] at hval
        rcases Option.isSome_iff_exists.mp (hall c (List.mem_cons_self c t)) with ⟨d, hd⟩
        rw [hd] at hval
        simp only [Option.map_some', Option.some.injEq] at hval
        have ht : ∀ x ∈ t, (digitVal x).isSome :=
          fun x hx => hall x (List.mem_cons_of_mem c hx)
        simp only [List.cons_append, digitsVal, hd, Option.map_some', Option.some.injEq]
        rw [digitsGo_append_digit t hmod ht d, hval]
        omega

theorem natRepr_data (n : Nat) : (natRepr n).data = natDigitsAux (n + 1) n := rfl

theorem natRepr_ne_empty (n : Nat) : ((natRepr n : String) == "") = false := by
  rw [beq_eq_false_iff_ne]
  intro hEq
  have hdata : natDigitsAux (n + 1) n = [] := by
    have := congrArg String.data hEq
    simpa [natRepr_data] using this
  have hval := (natDigits_parse n).2
  rw [hdata] at hval
  simp [digitsVal] at hval

theorem jsParseInt_natRepr (n : Nat) : jsParseInt (natRepr n) = some (n : Int) := by
  rcases natDigits_parse n with ⟨hall, hval⟩
  have hstart : jsParseInt (natRepr n) = jsParseIntChars (natDigitsAux (n + 1) n) := rfl
  rw [hstart]
  match hshape : natDigitsAux (n + 1) n with
  | [] => rw [hshape] at hval; simp [digitsVal] at hval
  | c :: rest =>
    rw [hshape] at hval hall
    have hc : (digitVal c).isSome := hall c (List.mem_cons_self c rest)
    have hcm : c ≠ '-' := by
      intro h; subst h; simp [digitVal] at hc
    have hcp : c ≠ '+' := by
      intro h; subst h; simp [digitVal] at hc
    simp only [jsParseIntChars, if_neg hcm, if_neg hcp, hval]
    rfl

theorem intRepr_ofNat (n : Nat) : intRepr (n : Int) = natRepr n := by
  unfold intRepr
  rw [if_neg (by omega)]
  simp

/-! ## Router dispatch lemmas -/

theorem not_generate_of_download (s : String) :
    jsStartsWith ("/download/" ++ s) "/generate/" = false := by
  simp [jsStartsWith, String.data_append, List.isPrefixOf]

theorem starts_download_self (s : String) :
    jsStartsWith ("/download/" ++ s) "/download/" = true := by
  simp [jsStartsWith, String.data_append, List.isPrefixOf]

theorem not_generate_of_stats (s : String) :
    jsStartsWith ("/stats/" ++ s) "/generate/" = false := by
  simp [jsStartsWith, String.data_append, List.isPrefixOf]

theorem not_download_of_stats (s : String) :
    jsStartsWith ("/stats/" ++ s) "/download/" = false := by
  simp [jsStartsWith, String.data_append, List.isPrefixOf]

theorem starts_stats_self (s : String) :
    jsStartsWith ("/stats/" ++ s) "/stats/" = true := by
  simp [jsStartsWith, String.data_append, List.isPrefixOf]

theorem not_generate_of_reset (s : String) :
    jsStartsWith ("/reset-stats/" ++ s) "/generate/" = false := by
  simp [jsStartsWith, String.data_append, List.isPrefixOf]

theorem not_download_of_reset (s : String) :
    jsStartsWith ("/reset-stats/" ++ s) "/download/" = false := by
  simp [jsStartsWith, String.data_append, List.isPrefixOf]

theorem not_stats_of_reset (s : String) :
    jsStartsWith ("/reset-stats/" ++ s) "/stats/" = false := by
  simp [jsStartsWith, String.data_append, List.isPrefixOf]

theorem starts_reset_self (s : String) :
    jsStartsWith ("/reset-stats/" ++ s) "/reset-stats/" = true := by
  simp [jsStartsWith, String.data_append, List.isPrefixOf]

/-- The router sends a `/download/...` request (other than a preflight) to
`handleDownload` after percent-decoding the extracted segment. -/
theorem workerFetch_download_route (req : Request) (st : StoreState) (f : Faults) (s : String)
    (hm : (req.method == "OPTIONS") = false)
    (hp : req.path = "/download/" ++ s) :
    workerFetch req st f =
      match jsDecodeURIComponent (jsSplitAfter "/download/" ("/download/" ++ s)) with
      | none => { resp := none, st := st, ops := [] }
      | some fn => handleDownload req fn st f := by
  simp only [workerFetch, hp, hm, not_generate_of_download, starts_download_self,
    Bool.false_eq_true, if_false, if_true]

/-- The router sends a `/stats/...` request with a non-empty extracted
segment (other than a preflight) to the stats branch. -/
theorem workerFetch_stats_route (req : Request) (st : StoreState) (f : Faults) (s fn : String)
    (hm : (req.method == "OPTIONS") = false)
    (hp : req.path = "/stats/" ++ s)
    (hext : jsSplitAfter "/stats/" ("/stats/" ++ s) = fn)
    (hne : (fn == "") = false) :
    workerFetch req st f = handleStats req fn st f := by
  simp only [workerFetch, hp, hm, not_generate_of_stats, not_download_of_stats,
    starts_stats_self, Bool.false_eq_true, if_false, if_true, hext, hne]

/-- The router sends a POST `/reset-stats/...` request to
`resetDownloadCount` with the raw (undecoded) extracted segment. -/
theorem workerFetch_reset_route (req : Request) (st : StoreState) (f : Faults) (s : String)
    (hm : req.method = "POST")
    (hp : req.path = "/reset-stats/" ++ s) :
    workerFetch req st f =
      resetDownloadCount req (jsSplitAfter "/reset-stats/" ("/reset-stats/" ++ s)) st f := by
  simp only [workerFetch, hp, hm, not_generate_of_reset, not_download_of_reset,
    not_stats_of_reset, starts_reset_self, Bool.false_eq_true, if_false, if_true,
    show (("POST" : String) == "OPTIONS") = false from rfl,
    show (("POST" : String) == "GET") = false from rfl, Bool.and_false]
  simp

/-! ## Store and header adapter lemmas -/

theorem kvGet_kvPut_same (kv : List (String × String)) (k v : String) :
    kvGet (kvPut kv k v) k = some v := by
  simp [kvGet, kvPut, List.find?_cons]

theorem headersGet_headersSet_same (hs : List (String × String)) (k v : String) :
    headersGet (headersSet hs k v) k = some v := by
  simp only [headersGet, headersSet, List.find?_append]
  have hleft : List.find? (fun p => headerNameEq p.1 k)
      (hs.filter (fun p => !(headerNameEq p.1 k))) = none := by
    rw [List.find?_eq_none]
    intro p hp
    have := (List.mem_filter.mp hp).2
    simpa using this
  rw [hleft]
  simp [List.find?_cons, headerNameEq]

/-! ### C4: dotless filenames are always rejected -/

theorem toLower_ne_dot {c : Char} (h : c ≠ '.') : Char.toLower c ≠ '.' := by
  show (if c.toNat ≥ 65 ∧ c.toNat ≤ 90 then Char.ofNat (c.toNat + 32) else c) ≠ '.'
  by_cases hcond : c.toNat ≥ 65 ∧ c.toNat ≤ 90
  · rw [if_pos hcond]
    rcases hcond with ⟨h1, h2⟩
    generalize c.toNat = m at h1 h2 ⊢
    interval_cases m <;> decide
  · rw [if_neg hcond]; exact h

theorem jsLastIndexOf_eq_neg_one {s : String} (h : '.' ∉ s.data) :
    jsLastIndexOf s '.' = -1 := by
  unfold jsLastIndexOf
  have : s.data.reverse.findIdx? (· == '.') = none := by
    rw [List.findIdx?_eq_none_iff]
    intro c hc
    have : c ∈ s.data := List.mem_reverse.mp hc
    simp only [beq_eq_false_iff_ne]
    intro hEq; exact h (hEq ▸ this)
  rw [this]

/-- C4: for every filename with no `.` character, the validator returns
`false` — JS `substring(-1)` clamps to the whole string, whose lowercase
form still has no `.`, while every allowed extension starts with `.`. -/
theorem c4_dotless_filename_rejected (s : String) (h : '.' ∉ s.data) :
    isValidFile s = false := by
  unfold isValidFile
  rw [jsLastIndexOf_eq_neg_one h]
  have hdrop : jsSubstringFrom s (-1) = s := by
    simp [jsSubstringFrom]
  rw [hdrop]
  have hlow : '.' ∉ (jsToLower s).data := by
    simp only [jsToLower]
    intro hmem
    rcases List.mem_map.mp hmem with ⟨c, hc, hEq⟩
    by_cases hcd : c = '.'
    · subst hcd; simp [Char.toLower] at hEq; exact h hc
    · exact toLower_ne_dot hcd hEq
  have hne : ∀ t : String, '.' ∈ t.data → (jsToLower s == t) = false := by
    intro t ht
    exact beq_eq_false_iff_ne.mpr (fun hEq => hlow (hEq ▸ ht))
  simp only [ALLOWED_EXTENSIONS, List.contains_cons,
    hne ".jpg" (by decide), hne ".png" (by decide), hne ".pdf" (by decide),
    hne ".zip" (by decide), hne ".mp4" (by decide), hne ".mp3" (by decide),
    Bool.false_or]
  rfl

/-- C4 witness: the dotless filename `README` is rejected. -/
theorem c4_dotless_filename_rejected_witness :
    '.' ∉ ("README" : String).data ∧ isValidFile "README" = false :=
  ⟨by decide, c4_dotless_filename_rejected "README" (by decide)⟩

/-! ## Header chain lemmas -/

theorem find?_filter_of_imp {α : Type} (p q : α → Bool) (l : List α)
    (h : ∀ x, p x = true → q x = true) :
    List.find? p (l.filter q) = List.find? p l := by
  induction l with
  | nil => rfl
  | cons a t ih =>
    by_cases hq : q a = true
    · rw [List.filter_cons_of_pos hq]
      cases hp : p a <;> simp [List.find?_cons, hp, ih]
    · have hp : p a = false := by
        cases hpc : p a
        · rfl
        · exact absurd (h a hpc) hq
      rw [List.filter_cons_of_neg (by simpa using hq)]
      simp [List.find?_cons, hp, ih]

theorem headersGet_headersSet_ne (hs : List (String × String)) (k k' v : String)
    (hne : (jsToLower k == jsToLower k') = false) :
    headersGet (headersSet hs k' v) k = headersGet hs k := by
  simp only [headersGet, headersSet, List.find?_append]
  rw [find?_filter_of_imp (fun p => headerNameEq p.1 k) (fun p => !(headerNameEq p.1 k')) hs ?himp]
  case himp =>
    intro x hx
    simp only [headerNameEq] at hx ⊢
    have hxk : jsToLower x.1 = jsToLower k := eq_of_beq hx
    rw [hxk]
    simpa using hne
  cases hfind : List.find? (fun p => headerNameEq p.1 k) hs
  · have hkk : headerNameEq k' k = false := by
      simp only [headerNameEq]
      rw [beq_eq_false_iff_ne] at hne ⊢
      exact fun hEq => hne hEq.symm
    simp [List.find?_cons, hkk]
  · simp

theorem headersGet_setDownloadHeaders_cd (filename : String) (obj : R2Object) :
    headersGet (setDownloadHeaders filename obj) "Content-Disposition" =
      some ("attachment; filename=\"" ++ filename ++ "\"") := by
  unfold setDownloadHeaders
  rw [headersGet_headersSet_ne _ _ _ _ (by decide),
      headersGet_headersSet_ne _ _ _ _ (by decide),
      headersGet_headersSet_ne _ _ _ _ (by decide),
      headersGet_headersSet_ne _ _ _ _ (by decide),
      headersGet_headersSet_same]

/-! ## C3: download of a stored object -/

/-- C3 (amended): for every `/download/` request whose decoded key has an
allowed extension, if the key itself percent-decodes without a `URIError`
and the object is present, the response is 200 with a
`Content-Disposition` header containing the literal filename and the
stored bytes as body; if no object is present (no decode condition
needed: the object check precedes the decode), the response is 404.
(The decode-success condition on the 200 half is forced by the
counterexample below.) -/
theorem c3_download_delivery (req : Request) (st : StoreState) (f : Faults)
    (s key : String) (obj : R2Object)
    (hm : (req.method == "OPTIONS") = false)
    (hp : req.path = "/download/" ++ s)
    (hdec : jsDecodeURIComponent (jsSplitAfter "/download/" ("/download/" ++ s)) = some key)
    (hval : isValidFile key = true)
    (hr2f : f.r2Throws = false) :
    ((jsDecodeURIComponent key).isSome = true → r2Get st.r2 key = some obj →
      respStatus (workerFetch req st f).resp = some 200 ∧
      respHeader (workerFetch req st f).resp "Content-Disposition" =
        some ("attachment; filename=\"" ++ key ++ "\"") ∧
      (∃ pre post, respHeader (workerFetch req st f).resp "Content-Disposition" =
        some (pre ++ key ++ post)) ∧
      respBytes (workerFetch req st f).resp = some obj.body) ∧
    (r2Get st.r2 key = none →
      respStatus (workerFetch req st f).resp = some 404) := by
  have hroute : workerFetch req st f = handleDownload req key st f := by
    rw [workerFetch_download_route req st f s hm hp, hdec]
  rw [hroute]
  have hkne : (key == "") = false := by
    rw [beq_eq_false_iff_ne]
    intro hk
    rw [hk] at hval
    exact absurd hval (by decide)
  constructor
  · intro hdec2 hr2
    rcases Option.isSome_iff_exists.mp hdec2 with ⟨d, hd⟩
    simp only [handleDownload, hkne, hval, hr2f, hr2, hd, Bool.not_true,
      Bool.or_false, Bool.false_eq_true, if_false]
    by_cases hdbg : (req.xDebug == some "true") = true
    · simp only [hdbg, if_true]
      refine ⟨rfl, ?_, ?_, rfl⟩
      · show headersGet _ "Content-Disposition" = _
        rw [headersGet_headersSet_ne _ _ _ _ (by decide),
            headersGet_headersSet_ne _ _ _ _ (by decide),
            headersGet_setDownloadHeaders_cd]
      · refine ⟨"attachment; filename=\"", "\"", ?_⟩
        show headersGet _ "Content-Disposition" = _
        rw [headersGet_headersSet_ne _ _ _ _ (by decide),
            headersGet_headersSet_ne _ _ _ _ (by decide),
            headersGet_setDownloadHeaders_cd]
    · have hdbg' : (req.xDebug == some "true") = false := by
        cases h : (req.xDebug == some "true")
        · rfl
        · exact absurd h hdbg
      simp only [hdbg', Bool.false_eq_true, if_false]
      refine ⟨rfl, ?_, ?_, rfl⟩
      · show headersGet _ "Content-Disposition" = _
        rw [headersGet_setDownloadHeaders_cd]
      · refine ⟨"attachment; filename=\"", "\"", ?_⟩
        show headersGet _ "Content-Disposition" = _
        rw [headersGet_setDownloadHeaders_cd]
  · intro hr2
    simp only [handleDownload, hkne, hval, hr2f, hr2, Bool.not_true,
      Bool.or_false, Bool.false_eq_true, if_false]
    rfl

/-- C3 counterexample to the claim as stated: the key `100%.pdf` has the
allowed extension `.pdf` and is present in the store, yet
`GET /download/100%25.pdf` answers 500, not 200 — the increment call's
`decodeURIComponent("100%.pdf")` throws a `URIError` inside the `try`. -/
theorem c3_counterexample_percent_key :
    isValidFile "100%.pdf" = true ∧
    r2Get [("100%.pdf", demoObj)] "100%.pdf" = some demoObj ∧
    respStatus (workerFetch { method := "GET", path := "/download/100%25.pdf" }
      { kv := [], r2 := [("100%.pdf", demoObj)] } noFaults).resp = some 500 := by
  refine ⟨by decide, by decide, ?_⟩
  rfl

/-- C3 witness: a concrete stored `song.mp3` is delivered with status
200. -/
theorem c3_download_delivery_witness :
    isValidFile "song.mp3" = true ∧
    respStatus (workerFetch { method := "GET", path := "/download/song.mp3" }
      { kv := [], r2 := [("song.mp3", demoObj)] } noFaults).resp = some 200 :=
  ⟨by decide,
    ((c3_download_delivery { method := "GET", path := "/download/song.mp3" }
      { kv := [], r2 := [("song.mp3", demoObj)] } noFaults "song.mp3" "song.mp3" demoObj
      (by decide) rfl (by decide) (by decide) rfl).1 (by decide) (by decide)).1⟩

/-! ## C1: the counter key the download path writes vs. the one stats reads -/

/-- C1 (failing run): for the stored key `a%20b.mp3`, requested as
`/download/a%2520b.mp3`, the download succeeds (200) but the increment
writes `download:a b.mp3` — the router's decode composed with the extra
`decodeURIComponent` at the increment call site — while
`GET /stats/a%2520b.mp3` reads `download:a%20b.mp3` and reports 0 after
one successful download. -/
theorem c1_double_decode_breaks_stats :
    respStatus (workerFetch { method := "GET", path := "/download/a%2520b.mp3" }
      { kv := [], r2 := [("a%20b.mp3", demoObj)] } noFaults).resp = some 200 ∧
    kvGet (workerFetch { method := "GET", path := "/download/a%2520b.mp3" }
      { kv := [], r2 := [("a%20b.mp3", demoObj)] } noFaults).st.kv
      "download:a b.mp3" = some "1" ∧
    kvGet (workerFetch { method := "GET", path := "/download/a%2520b.mp3" }
      { kv := [], r2 := [("a%20b.mp3", demoObj)] } noFaults).st.kv
      "download:a%20b.mp3" = none ∧
    respStatus (workerFetch { method := "GET", path := "/stats/a%2520b.mp3" }
      (workerFetch { method := "GET", path := "/download/a%2520b.mp3" }
        { kv := [], r2 := [("a%20b.mp3", demoObj)] } noFaults).st noFaults).resp =
      some 200 ∧
    respNumField (workerFetch { method := "GET", path := "/stats/a%2520b.mp3" }
      (workerFetch { method := "GET", path := "/download/a%2520b.mp3" }
        { kv := [], r2 := [("a%20b.mp3", demoObj)] } noFaults).st noFaults).resp
      "downloads" = some 0 := by
  refine ⟨rfl, rfl, rfl, rfl, rfl⟩

/-! ## C2: upload with no file entry -/

/-- C2 (failing run): a `POST /upload` carrying the valid token and a
multipart form with neither a `file` nor a `filename` entry crashes —
`formData.get('filename') || file.name` dereferences the `null` `file`
before the `if (!file || !filename)` check — instead of returning 400; no
store operation happens. -/
theorem c2_upload_missing_file_crashes :
    respStatus (workerFetch
      { method := "POST", path := "/upload",
        authorization := some "Bearer your-secret-token", formData := some [] }
      { kv := [], r2 := [] } noFaults).resp = none ∧
    (workerFetch
      { method := "POST", path := "/upload",
        authorization := some "Bearer your-secret-token", formData := some [] }
      { kv := [], r2 := [] } noFaults).ops = [] := by
  exact ⟨rfl, rfl⟩

/-! ## C10: bare-prefix paths -/

/-- C10 (amended): every request other than a CORS preflight whose path is
exactly `/download/`, `/generate/` or `/stats/` gets a 400 response, with
no store operation and the stores untouched.  (The OPTIONS restriction is
forced by the counterexample below.) -/
theorem c10_bare_prefix_rejected (req : Request) (st : StoreState) (f : Faults)
    (hm : (req.method == "OPTIONS") = false)
    (hp : req.path = "/download/" ∨ req.path = "/generate/" ∨ req.path = "/stats/") :
    respStatus (workerFetch req st f).resp = some 400 ∧
    (workerFetch req st f).st = st ∧
    (workerFetch req st f).ops = [] := by
  rcases hp with hp | hp | hp
  · have hroute : workerFetch req st f = handleDownload req "" st f := by
      simp only [workerFetch, hp, hm, Bool.false_eq_true, if_false,
        show jsStartsWith "/download/" "/generate/" = false from rfl,
        show jsStartsWith "/download/" "/download/" = true from rfl, if_true]
      rfl
    rw [hroute]
    exact ⟨rfl, rfl, rfl⟩
  · have hroute : workerFetch req st f =
        ({ resp := some (generateDownloadUrl req ""), st := st, ops := [] } : FetchOut) := by
      simp only [workerFetch, hp, hm, Bool.false_eq_true, if_false,
        show jsStartsWith "/generate/" "/generate/" = true from rfl, if_true]
      rfl
    rw [hroute]
    exact ⟨rfl, rfl, rfl⟩
  · have hroute : workerFetch req st f =
        ({ resp := some (textResponse 400 "Filename required"), st := st, ops := [] } : FetchOut) := by
      simp only [workerFetch, hp, hm, Bool.false_eq_true, if_false,
        show jsStartsWith "/stats/" "/generate/" = false from rfl,
        show jsStartsWith "/stats/" "/download/" = false from rfl,
        show jsStartsWith "/stats/" "/stats/" = true from rfl, if_true]
      rfl
    rw [hroute]
    exact ⟨rfl, rfl, rfl⟩

/-- C10 counterexample to the claim as stated: an OPTIONS request to the
bare `/download/` path is short-circuited by the CORS preflight branch and
answered 200, not 400. -/
theorem c10_counterexample_options :
    respStatus (workerFetch { method := "OPTIONS", path := "/download/" }
      { kv := [], r2 := [] } noFaults).resp = some 200 ∧
    respStatus (workerFetch { method := "OPTIONS", path := "/download/" }
      { kv := [], r2 := [] } noFaults).resp ≠ some 400 := by
  exact ⟨rfl, by decide⟩

/-- C10 witness: a GET to the bare `/download/` path is rejected with 400
and no store operation. -/
theorem c10_bare_prefix_rejected_witness :
    ((("GET" : String) == "OPTIONS") = false) ∧
    respStatus (workerFetch { method := "GET", path := "/download/" }
      { kv := [], r2 := [] } noFaults).resp = some 400 :=
  ⟨by decide,
    (c10_bare_prefix_rejected { method := "GET", path := "/download/" }
      { kv := [], r2 := [] } noFaults (by decide) (Or.inl rfl)).1⟩

/-! ## C6: unauthorized reset leaves the counter store untouched -/

/-- C6: a `POST /reset-stats/{key}` whose `Authorization` header is absent
or differs from `Bearer <token>` is answered 401 before any store call:
no operation is attempted and every counter (that key and all others) is
unchanged. -/
theorem c6_reset_unauthorized (req : Request) (st : StoreState) (f : Faults) (s : String)
    (hm : req.method = "POST")
    (hp : req.path = "/reset-stats/" ++ s)
    (ha : req.authorization ≠ some ("Bearer " ++ AUTH_TOKEN)) :
    respStatus (workerFetch req st f).resp = some 401 ∧
    (workerFetch req st f).st = st ∧
    (workerFetch req st f).ops = [] ∧
    ∀ k, kvGet (workerFetch req st f).st.kv k = kvGet st.kv k := by
  rw [workerFetch_reset_route req st f s hm hp]
  have ha' : (req.authorization == some ("Bearer " ++ AUTH_TOKEN)) = false :=
    beq_eq_false_iff_ne.mpr ha
  simp [resetDownloadCount, ha', respStatus, textResponse]

/-- C6 witness: a tokenless reset of `song.mp3` on a store holding a
counter of 7 answers 401 and leaves the counter readable as before. -/
theorem c6_reset_unauthorized_witness :
    (some "Bearer wrong" ≠ some ("Bearer " ++ AUTH_TOKEN)) ∧
    respStatus (workerFetch
      { method := "POST", path := "/reset-stats/song.mp3",
        authorization := some "Bearer wrong" }
      { kv := [("download:song.mp3", "7")], r2 := [] } noFaults).resp = some 401 ∧
    kvGet (workerFetch
      { method := "POST", path := "/reset-stats/song.mp3",
        authorization := some "Bearer wrong" }
      { kv := [("download:song.mp3", "7")], r2 := [] } noFaults).st.kv
      "download:song.mp3" = kvGet [("download:song.mp3", "7")] "download:song.mp3" :=
  ⟨by decide,
    (c6_reset_unauthorized
      { method := "POST", path := "/reset-stats/song.mp3",
        authorization := some "Bearer wrong" }
      { kv := [("download:song.mp3", "7")], r2 := [] } noFaults "song.mp3"
      rfl rfl (by decide)).1,
    (c6_reset_unauthorized
      { method := "POST", path := "/reset-stats/song.mp3",
        authorization := some "Bearer wrong" }
      { kv := [("download:song.mp3", "7")], r2 := [] } noFaults "song.mp3"
      rfl rfl (by decide)).2.2.2 "download:song.mp3"⟩

/-! ## C5: stats-read failure is downgraded to a 200 payload -/

/-- C5: for every `/stats/{filename}` request with a non-empty, decodable
filename, when the KV read throws the endpoint still answers 200 with
`downloads: 0`, `success: false` and an `error` field, rather than a
non-200 status. -/
theorem c5_stats_failure_downgraded (req : Request) (st : StoreState) (f : Faults)
    (s d : String)
    (hm : (req.method == "OPTIONS") = false)
    (hp : req.path = "/stats/" ++ s)
    (hext : jsSplitAfter "/stats/" ("/stats/" ++ s) = s)
    (hne : (s == "") = false)
    (hdec : jsDecodeURIComponent s = some d)
    (hkv : f.kvThrows = true) :
    respStatus (workerFetch req st f).resp = some 200 ∧
    respNumField (workerFetch req st f).resp "downloads" = some 0 ∧
    respStrField (workerFetch req st f).resp "error" = some f.kvErrMsg ∧
    respBoolField (workerFetch req st f).resp "success" = some false := by
  rw [workerFetch_stats_route req st f s s hm hp hext hne]
  simp only [handleStats, hdec, hkv, if_true]
  exact ⟨rfl, rfl, rfl, rfl⟩

/-- C5 witness: a stats request for `song.mp3` against a throwing KV
backend. -/
theorem c5_stats_failure_downgraded_witness :
    (({ kvThrows := true } : Faults).kvThrows = true) ∧
    respStatus (workerFetch { method := "GET", path := "/stats/song.mp3" }
      { kv := [], r2 := [] } { kvThrows := true }).resp = some 200 ∧
    respNumField (workerFetch { method := "GET", path := "/stats/song.mp3" }
      { kv := [], r2 := [] } { kvThrows := true }).resp "downloads" = some 0 :=
  ⟨rfl,
    (c5_stats_failure_downgraded { method := "GET", path := "/stats/song.mp3" }
      { kv := [], r2 := [] } { kvThrows := true } "song.mp3" "song.mp3"
      (by decide) rfl (by decide) (by decide) (by decide) rfl).1,
    (c5_stats_failure_downgraded { method := "GET", path := "/stats/song.mp3" }
      { kv := [], r2 := [] } { kvThrows := true } "song.mp3" "song.mp3"
      (by decide) rfl (by decide) (by decide) (by decide) rfl).2.1⟩

/-! ## C7: increment reads, adds one, writes back a decimal string -/

/-- C7: for every counter-store state and filename, the increment
operation maps a stored decimal value `n` to the stored string of `n + 1`,
and an absent counter to the stored string `"1"`. -/
theorem c7_increment_semantics (kv : List (String × String)) (fn : String) (n : Nat) :
    (kvGet kv ("download:" ++ fn) = some (natRepr n) →
      kvGet (incrementDownloadCount false kv fn).kv ("download:" ++ fn) =
        some (natRepr (n + 1))) ∧
    (kvGet kv ("download:" ++ fn) = none →
      kvGet (incrementDownloadCount false kv fn).kv ("download:" ++ fn) = some "1") := by
  constructor
  · intro hcur
    simp only [incrementDownloadCount, Bool.false_eq_true, if_false, hcur,
      natRepr_ne_empty, jsParseInt_natRepr, Option.map_some']
    have hcast : ((n : Int) + 1) = ((n + 1 : Nat) : Int) := by push_cast; ring
    rw [hcast, intRepr_ofNat]
    exact kvGet_kvPut_same kv ("download:" ++ fn) (natRepr (n + 1))
  · intro hcur
    simp only [incrementDownloadCount, Bool.false_eq_true, if_false, hcur]
    rw [show intRepr 1 = "1" from rfl]
    exact kvGet_kvPut_same kv ("download:" ++ fn) "1"

/-- C7 witness: from a stored `"5"` the increment stores `"6"`; from an
absent counter it stores `"1"`. -/
theorem c7_increment_semantics_witness :
    (kvGet [("download:x.mp3", "5")] ("download:" ++ "x.mp3") = some (natRepr 5) ∧
      kvGet (incrementDownloadCount false [("download:x.mp3", "5")] "x.mp3").kv
        ("download:" ++ "x.mp3") = some (natRepr 6)) ∧
    (kvGet [] ("download:" ++ "x.mp3") = none ∧
      kvGet (incrementDownloadCount false [] "x.mp3").kv
        ("download:" ++ "x.mp3") = some "1") :=
  ⟨⟨by decide, (c7_increment_semantics [("download:x.mp3", "5")] "x.mp3" 5).1 (by decide)⟩,
   ⟨by decide, (c7_increment_semantics [] "x.mp3" 0).2 (by decide)⟩⟩

/-! ## C8: an increment failure never reaches the download response -/

theorem handleDownload_resp_indep (req : Request) (fn : String) (st : StoreState)
    (f1 f2 : Faults) (hr : f1.r2Throws = f2.r2Throws) :
    (handleDownload req fn st f1).resp = (handleDownload req fn st f2).resp := by
  unfold handleDownload
  rw [hr]
  by_cases h1 : (fn == "" || !isValidFile fn) = true
  · simp only [h1, if_true]
  · have h1' : (fn == "" || !isValidFile fn) = false := eq_false_of_ne_true h1
    simp only [h1', Bool.false_eq_true, if_false]
    by_cases h2 : f2.r2Throws = true
    · simp only [h2, if_true]
    · have h2' : f2.r2Throws = false := eq_false_of_ne_true h2
      simp only [h2', Bool.false_eq_true, if_false]
      cases r2Get st.r2 fn
      · rfl
      · cases jsDecodeURIComponent fn
        · rfl
        · rfl

/-- C8: for every `/download/` request (other than a preflight), the
response — status, headers and body alike — is the same whether or not the
counter-store increment throws: the fire-and-forget increment's rejection
is caught by a logging `.catch` and never reaches the caller. -/
theorem c8_increment_failure_invisible (req : Request) (st : StoreState) (s : String)
    (f1 f2 : Faults)
    (hm : (req.method == "OPTIONS") = false)
    (hp : req.path = "/download/" ++ s)
    (hr : f1.r2Throws = f2.r2Throws) :
    (workerFetch req st f1).resp = (workerFetch req st f2).resp := by
  rw [workerFetch_download_route req st f1 s hm hp,
      workerFetch_download_route req st f2 s hm hp]
  cases jsDecodeURIComponent (jsSplitAfter "/download/" ("/download/" ++ s))
  · rfl
  · exact handleDownload_resp_indep req _ st f1 f2 hr

/-- C8 witness: downloading `song.mp3` with a throwing KV backend yields
the same response as with a healthy one. -/
theorem c8_increment_failure_invisible_witness :
    ((({ kvThrows := true } : Faults).r2Throws = (noFaults : Faults).r2Throws)) ∧
    (workerFetch { method := "GET", path := "/download/song.mp3" }
      { kv := [], r2 := [("song.mp3", demoObj)] } { kvThrows := true }).resp =
    (workerFetch { method := "GET", path := "/download/song.mp3" }
      { kv := [], r2 := [("song.mp3", demoObj)] } noFaults).resp :=
  ⟨rfl,
    c8_increment_failure_invisible { method := "GET", path := "/download/song.mp3" }
      { kv := [], r2 := [("song.mp3", demoObj)] } "song.mp3"
      { kvThrows := true } noFaults (by decide) rfl rfl⟩

/-! ## C9: JSON bodies and the `success` field -/

theorem generateDownloadUrl_success_field (req : Request) (fn : String) :
    bodyIsJson (generateDownloadUrl req fn).body = true →
    hasSuccessBool (generateDownloadUrl req fn) = true := by
  unfold generateDownloadUrl
  split
  · intro h; exact absurd h (by decide)
  · split
    · intro h; exact absurd h (by decide)
    · intro _; rfl

theorem handleDownload_success_field (req : Request) (fn : String) (st : StoreState)
    (f : Faults) :
    ∀ r, (handleDownload req fn st f).resp = some r → bodyIsJson r.body = true →
    hasSuccessBool r = true := by
  intro r hr hj
  simp only [handleDownload] at hr
  repeat' split at hr
  all_goals simp at hr
  all_goals subst hr
  all_goals simp [bodyIsJson, textResponse] at hj

theorem handleStats_success_field (req : Request) (fn : String) (st : StoreState)
    (f : Faults) :
    ∀ r, (handleStats req fn st f).resp = some r → bodyIsJson r.body = true →
    hasSuccessBool r = true := by
  intro r hr hj
  simp only [handleStats] at hr
  repeat' split at hr
  all_goals simp at hr
  all_goals subst hr
  all_goals rfl

theorem getAllStats_success_field (st : StoreState) (f : Faults) :
    ∀ r, (getAllStats st f).resp = some r → bodyIsJson r.body = true →
    hasSuccessBool r = true := by
  intro r hr hj
  simp only [getAllStats] at hr
  repeat' split at hr
  all_goals simp at hr
  all_goals subst hr
  all_goals rfl

theorem testKV_success_field (req : Request) (st : StoreState) (f : Faults) :
    ∀ r, (testKV req st f).resp = some r → bodyIsJson r.body = true →
    hasSuccessBool r = true := by
  intro r hr hj
  simp only [testKV] at hr
  repeat' split at hr
  all_goals simp at hr
  all_goals subst hr
  all_goals rfl

theorem resetDownloadCount_success_field (req : Request) (fn : String) (st : StoreState)
    (f : Faults) :
    ∀ r, (resetDownloadCount req fn st f).resp = some r → bodyIsJson r.body = true →
    hasSuccessBool r = true := by
  intro r hr hj
  simp only [resetDownloadCount] at hr
  repeat' split at hr
  all_goals simp at hr
  all_goals subst hr
  all_goals first
    | rfl
    | simp [bodyIsJson, textResponse] at hj

theorem handleUpload_success_field (req : Request) (st : StoreState) (f : Faults) :
    ∀ r, (handleUpload req st f).resp = some r → bodyIsJson r.body = true →
    hasSuccessBool r = true := by
  intro r hr hj
  simp only [handleUpload] at hr
  repeat' split at hr
  all_goals simp at hr
  all_goals subst hr
  all_goals first
    | rfl
    | simp [bodyIsJson, textResponse] at hj

theorem listFiles_success_field (st : StoreState) (f : Faults) :
    ∀ r, (listFiles st f).resp = some r → bodyIsJson r.body = true →
    hasSuccessBool r = true := by
  intro r hr hj
  simp only [listFiles] at hr
  repeat' split at hr
  all_goals simp at hr
  all_goals subst hr
  all_goals first
    | rfl
    | simp [bodyIsJson, textResponse] at hj

/-- C9 (amended): every response of the worker whose body is JSON carries
a boolean `success` field; the validation (400), authorization (401),
not-found (404) and text backend-failure (500) responses are plain-text
bodies and carry none — contrary to the claim, which asserted the field
for every non-binary response.  (The restriction to JSON bodies is forced
by the counterexample below.) -/
theorem c9_json_bodies_carry_success (req : Request) (st : StoreState) (f : Faults) :
    ∀ r, (workerFetch req st f).resp = some r → bodyIsJson r.body = true →
    hasSuccessBool r = true := by
  intro r hr hj
  simp only [workerFetch] at hr
  repeat' split at hr
  all_goals
    first
      | exact handleDownload_success_field req _ st f r hr hj
      | exact handleStats_success_field req _ st f r hr hj
      | exact getAllStats_success_field st f r hr hj
      | exact testKV_success_field req st f r hr hj
      | exact resetDownloadCount_success_field req _ st f r hr hj
      | exact handleUpload_success_field req st f r hr hj
      | exact listFiles_success_field st f r hr hj
      | (simp at hr
         all_goals subst hr
         all_goals
           first
             | exact generateDownloadUrl_success_field req _ hj
             | simp [bodyIsJson, textResponse] at hj)

/-- C9 counterexample to the claim as stated: `GET /download/README` is
answered with the plain-text (non-binary, non-JSON) body
`Invalid file type` and status 400 — a non-binary response with no
`success` field. -/
theorem c9_counterexample_plain_text_400 :
    respStatus (workerFetch { method := "GET", path := "/download/README" }
      { kv := [], r2 := [] } noFaults).resp = some 400 ∧
    (workerFetch { method := "GET", path := "/download/README" }
      { kv := [], r2 := [] } noFaults).resp.map (fun r => bodyIsBinary r.body) =
      some false ∧
    (workerFetch { method := "GET", path := "/download/README" }
      { kv := [], r2 := [] } noFaults).resp.map (fun r => bodyText r.body) =
      some (some "Invalid file type") ∧
    (workerFetch { method := "GET", path := "/download/README" }
      { kv := [], r2 := [] } noFaults).resp.map hasSuccessBool = some false := by
  exact ⟨rfl, rfl, rfl, rfl⟩

/-- C9 witness: a stats response is JSON and carries `success`. -/
theorem c9_json_bodies_carry_success_witness :
    (workerFetch { method := "GET", path := "/stats/song.mp3" }
      { kv := [], r2 := [] } noFaults).resp.map (fun r => bodyIsJson r.body) =
      some true ∧
    (workerFetch { method := "GET", path := "/stats/song.mp3" }
      { kv := [], r2 := [] } noFaults).resp.map hasSuccessBool = some true := by
  refine ⟨rfl, ?_⟩
  have hr : (workerFetch { method := "GET", path := "/stats/song.mp3" }
      { kv := [], r2 := [] } noFaults).resp = some
        { status := 200,
          headers := [("Content-Type", "application/json"),
                      ("Access-Control-Allow-Origin", "*"),
                      ("Cache-Control", "no-cache")],
          body := .json (.jobj [("success", .jbool true),
            ("filename", .jstr "song.mp3"),
            ("downloads", .jnum 0),
            ("key", .jstr "download:song.mp3"),
            ("timestamp", .jstr "")]) } := rfl
  rw [hr, Option.map_some']
  rw [c9_json_bodies_carry_success { method := "GET", path := "/stats/song.mp3" }
    { kv := [], r2 := [] } noFaults _ hr rfl]

end CmsWorker
